import Mathlib

/-!
Shallow embedding of the wagtail-torchbox content layer
(`torchbox/models.py` and `torchbox/templatetags/torchbox_tags.py`).

Pages live in a treebeard-style materialised-path store: a page's tree
position is its `path`; ancestors are proper path prefixes, children extend
the path by exactly one segment, and `path__startswith` queries select the
subtree.  The store is modelled as a list of pages in database order.
-/

/-- The concrete page subtypes declared in `torchbox/models.py`. -/
inductive PType
  | home
  | standard
  | blogIndex
  | blog
  | job
  | jobIndex
  | work
  | workIndex
  | person
  | personIndex
  deriving DecidableEq, Repr

/-- A page row: identity, materialised path, subtype, the `live` and
`show_in_menus` flags, and the fields the listing logic reads
(`date` and `tags` on blog pages, `url` for link resolution). -/
structure Pg where
  id : Nat
  path : List Nat
  ptype : PType
  live : Bool
  show_in_menus : Bool
  date : Nat
  tags : List String
  url : String
  deriving DecidableEq, Repr

/-- The page store: all page rows in database order. -/
abbrev Store := List Pg

/-- Value of a run of ASCII digits, `none` when empty or not all digits.
Helper for the Python `int()` model. -/
def digitsVal (cs : List Char) : Option Nat :=
  if cs.isEmpty then none
  else if cs.all (fun c => c.isDigit) then
    some (cs.foldl (fun acc c => acc * 10 + (c.toNat - 48)) 0)
  else none

/-- Python `int()` applied to `request.GET.get('page')`: `None` raises
`TypeError` and a non-numeric string raises `ValueError`, both mapped to
`none` here (Django's `validate_number` turns either into
`PageNotAnInteger`); an optional sign followed by digits parses. -/
def pyInt : Option String → Option Int
  | none => none
  | some s =>
    match s.toList with
    | '-' :: rest => (digitsVal rest).map (fun v => -(v : Int))
    | '+' :: rest => (digitsVal rest).map (fun v => (v : Int))
    | cs => (digitsVal cs).map (fun v => (v : Int))

/-- The two pagination errors Django's `Paginator.page` can raise. -/
inductive PageError
  | notAnInteger
  | emptyPage
  deriving DecidableEq, Repr

/-- One page of results: the slice of objects and the 1-based page number. -/
structure Paged (α : Type) where
  object_list : List α
  number : Nat
  deriving DecidableEq, Repr

/-- Django `Paginator.num_pages` with `orphans=0` and
`allow_empty_first_page=True`: `ceil(max(1, count) / per_page)`. -/
def num_pages (count per_page : Nat) : Nat :=
  (max 1 count + per_page - 1) / per_page

/-- Django `Paginator.validate_number`: a failed `int()` conversion raises
`PageNotAnInteger`; a number below 1 or above `num_pages` raises `EmptyPage`
(page 1 is always allowed when `allow_empty_first_page`). -/
def validate_number (np : Nat) (raw : Option String) : Except PageError Int :=
  match pyInt raw with
  | none => .error .notAnInteger
  | some n =>
    if n < 1 then .error .emptyPage
    else if (np : Int) < n then
      if n = 1 then .ok n else .error .emptyPage
    else .ok n

/-- Django `Paginator.page` on a validated number: the slice
`object_list[(n-1)*per_page : n*per_page]`. -/
def paginator_page (items : List α) (per_page n : Nat) : Paged α :=
  { object_list := (items.drop ((n - 1) * per_page)).take per_page
    number := n }

/-- The `try/except` pagination pattern repeated in every `serve` method:
`PageNotAnInteger` falls back to page 1, `EmptyPage` to the last page. -/
def paginate_request (items : List α) (per_page : Nat) (raw : Option String) :
    Paged α :=
  match validate_number (num_pages items.length per_page) raw with
  | .ok n => paginator_page items per_page n.toNat
  | .error .notAnInteger => paginator_page items per_page 1
  | .error .emptyPage => paginator_page items per_page (num_pages items.length per_page)

/-- Ordering used by `order_by('-date')`: most recent date first. -/
def dateGE (a b : Pg) : Prop := b.date ≤ a.date

instance : DecidableRel dateGE := fun a b => Nat.decLe b.date a.date

instance : IsTotal Pg dateGE := ⟨fun a b => Nat.le_total b.date a.date⟩

instance : IsTrans Pg dateGE := ⟨fun _ _ _ h h' => Nat.le_trans h' h⟩

/-- Ordering of `get_ancestors` results: by depth, root first. -/
def depthLE (a b : Pg) : Prop := a.path.length ≤ b.path.length

instance : DecidableRel depthLE := fun a b => Nat.decLe a.path.length b.path.length

instance : IsTotal Pg depthLE := ⟨fun a b => Nat.le_total a.path.length b.path.length⟩

instance : IsTrans Pg depthLE := ⟨fun _ _ _ h h' => Nat.le_trans h h'⟩

namespace BlogIndexPage

/-- `BlogIndexPage.blogs`: live `BlogPage` rows whose path starts with this
page's path, ordered by post date descending. -/
def blogs (store : Store) (self : Pg) : List Pg :=
  List.insertionSort dateGE
    (store.filter fun p => p.ptype == PType.blog && p.live && self.path.isPrefixOf p.path)

/-- The tag-filter step of `BlogIndexPage.serve`: `if tag:` is Python
truthiness, so a missing or empty `tag` parameter applies no filter. -/
def filtered_blogs (store : Store) (self : Pg) (tagParam : Option String) : List Pg :=
  match tagParam with
  | some t => if t != "" then (blogs store self).filter (fun b => b.tags.contains t)
              else blogs store self
  | none => blogs store self

/-- `BlogIndexPage.serve`: tag filtering then pagination at 10 per page. -/
def serve (store : Store) (self : Pg) (tagParam pageParam : Option String) : Paged Pg :=
  paginate_request (filtered_blogs store self tagParam) 10 pageParam

end BlogIndexPage

namespace JobIndexPage

/-- `JobIndexPage.jobs`: live `JobPage` descendants, store order. -/
def jobs (store : Store) (self : Pg) : List Pg :=
  store.filter fun p => p.ptype == PType.job && p.live && self.path.isPrefixOf p.path

/-- `JobIndexPage.serve`: pagination at 10 per page. -/
def serve (store : Store) (self : Pg) (pageParam : Option String) : Paged Pg :=
  paginate_request (jobs store self) 10 pageParam

end JobIndexPage

namespace WorkIndexPage

/-- `WorkIndexPage.work`: live `WorkPage` descendants, store order. -/
def work (store : Store) (self : Pg) : List Pg :=
  store.filter fun p => p.ptype == PType.work && p.live && self.path.isPrefixOf p.path

/-- `WorkIndexPage.serve`: pagination at 10 per page. -/
def serve (store : Store) (self : Pg) (pageParam : Option String) : Paged Pg :=
  paginate_request (work store self) 10 pageParam

end WorkIndexPage

namespace PersonIndexPage

/-- `PersonIndexPage.people`: live `PersonPage` descendants, store order. -/
def people (store : Store) (self : Pg) : List Pg :=
  store.filter fun p => p.ptype == PType.person && p.live && self.path.isPrefixOf p.path

/-- `PersonIndexPage.serve`: pagination at 10 per page. -/
def serve (store : Store) (self : Pg) (pageParam : Option String) : Paged Pg :=
  paginate_request (people store self) 10 pageParam

end PersonIndexPage

/-- Treebeard `get_ancestors`: every page whose path is a proper prefix of
this page's path, ordered by depth, root first. -/
def get_ancestors (store : Store) (self : Pg) : List Pg :=
  List.insertionSort depthLE
    (store.filter fun a => a.path.isPrefixOf self.path && a.path != self.path)

/-- `BlogPage.blog_index`: walk `reversed(self.get_ancestors())` (nearest
ancestor first) and return the first `BlogIndexPage`; when none matches,
fall back to `BlogIndexPage.objects.first()`, `none` on an empty store. -/
def Pg.blog_index (store : Store) (self : Pg) : Option Pg :=
  match (get_ancestors store self).reverse.find? (fun a => a.ptype == PType.blogIndex) with
  | some a => some a
  | none => store.find? (fun p => p.ptype == PType.blogIndex)

/-- Treebeard `get_children`: pages one level deeper whose path extends this
page's path. -/
def get_children (store : Store) (self : Pg) : List Pg :=
  store.filter fun c =>
    c.path.length == self.path.length + 1 && self.path.isPrefixOf c.path

/-- `has_menu_children`: truthiness of
`page.get_children().filter(live=True, show_in_menus=True)`. -/
def has_menu_children (store : Store) (page : Pg) : Bool :=
  !((get_children store page).filter fun c => c.live && c.show_in_menus).isEmpty

/-- `top_menu`: the published, nav-visible immediate children of `parent`,
each annotated with its `show_dropdown` flag. -/
def top_menu (store : Store) (parent : Pg) : List (Pg × Bool) :=
  ((get_children store parent).filter fun c => c.live && c.show_in_menus).map
    fun menuitem => (menuitem, has_menu_children store menuitem)

/-- A link target resolvable to a URL (a chosen page or document). -/
structure LinkTarget where
  url : String
  deriving DecidableEq, Repr

/-- The `LinkFields` abstract model: an external URL plus nullable page and
document foreign keys. -/
structure LinkFields where
  link_external : String
  link_page : Option LinkTarget
  link_document : Option LinkTarget
  deriving DecidableEq, Repr

/-- The `LinkFields.link` property: `link_page` wins, then `link_document`,
else the raw `link_external` string (a set foreign key is always truthy). -/
def LinkFields.link (f : LinkFields) : String :=
  match f.link_page with
  | some p => p.url
  | none =>
    match f.link_document with
    | some d => d.url
    | none => f.link_external

/-- A time-of-day value as read by the `time_display` template filter. -/
structure TimeOfDay where
  hour : Nat
  minute : Nat
  deriving DecidableEq, Repr

/-- The `time_display` template filter from `torchbox_tags.py`, translated
statement by statement. -/
def time_display (t : TimeOfDay) : String :=
  let hour := t.hour
  let minute := t.minute
  let pm := 12 ≤ hour
  let hour := if 12 ≤ hour then hour - 12 else hour
  let hour := if hour = 0 then 12 else hour
  let hour_string := toString hour
  let minute_string := if minute != 0 then "." ++ toString minute else ""
  let pm_string := if pm then "pm" else "am"
  hour_string ++ minute_string ++ pm_string

/-- The spec's description of the formatter, written independently of the
code: 12-hour hour with 0 and 12 shown as 12, minutes after `.` only when
non-zero, `am`/`pm` suffix. -/
def spec_time_display (t : TimeOfDay) : String :=
  let h12 := if t.hour % 12 = 0 then 12 else t.hour % 12
  toString h12 ++ (if t.minute ≠ 0 then "." ++ toString t.minute else "")
    ++ (if 12 ≤ t.hour then "pm" else "am")

example : pyInt (some "abc") = none := by decide
example : pyInt (some "0") = some 0 := by decide
example : pyInt (some "-1") = some (-1) := by decide
example : pyInt none = none := by decide
example : num_pages 11 10 = 2 := by decide
example : num_pages 0 10 = 1 := by decide
example : time_display ⟨9, 0⟩ = "9am" := by decide
example : time_display ⟨13, 5⟩ = "1.5pm" := by decide
example : time_display ⟨0, 0⟩ = "12am" := by decide
example : time_display ⟨12, 0⟩ = "12pm" := by decide
example : time_display ⟨23, 45⟩ = "11.45pm" := by decide

/-! ## Helper lemmas -/

theorem num_pages_pos (count : Nat) : 1 ≤ num_pages count 10 := by
  unfold num_pages
  omega

theorem validate_number_ok_bounds (np : Nat) (raw : Option String) (n : Int)
    (h : validate_number np raw = .ok n) : 1 ≤ n ∧ (n ≤ np ∨ n = 1) := by
  unfold validate_number at h
  cases hp : pyInt raw with
  | none => rw [hp] at h; cases h
  | some m =>
    rw [hp] at h
    dsimp only at h
    split_ifs at h with h1 h2 h3 <;> cases h <;> omega

theorem paginate_request_number_bounds (items : List α) (raw : Option String) :
    1 ≤ (paginate_request items 10 raw).number ∧
      (paginate_request items 10 raw).number ≤ num_pages items.length 10 := by
  unfold paginate_request
  cases h : validate_number (num_pages items.length 10) raw with
  | ok n =>
    have hb := validate_number_ok_bounds _ _ _ h
    have hp := num_pages_pos items.length
    simp only [paginator_page]
    omega
  | error e =>
    have hp := num_pages_pos items.length
    cases e <;> simp only [paginator_page] <;> omega

theorem paginate_request_not_int (items : List α) (raw : Option String)
    (h : pyInt raw = none) : (paginate_request items 10 raw).number = 1 := by
  unfold paginate_request validate_number
  rw [h]
  rfl

theorem paginate_request_too_big (items : List α) (raw : Option String) (n : Int)
    (h1 : pyInt raw = some n) (h2 : (num_pages items.length 10 : Int) < n) :
    (paginate_request items 10 raw).number = num_pages items.length 10 := by
  have hp := num_pages_pos items.length
  unfold paginate_request validate_number
  rw [h1]
  have hn1 : ¬ n < 1 := by omega
  have hne : ¬ n = 1 := by omega
  simp only [if_neg hn1, if_pos h2, if_neg hne]
  rfl

theorem paginate_request_too_small (items : List α) (raw : Option String) (n : Int)
    (h1 : pyInt raw = some n) (h2 : n < 1) :
    (paginate_request items 10 raw).number = num_pages items.length 10 := by
  unfold paginate_request validate_number
  rw [h1]
  simp only [if_pos h2]
  rfl

/-! ## Claim theorems -/

/-- C9: a `tag` query parameter that is present but empty is falsy in the
`if tag:` guard, so the blog listing is served exactly as if `tag` were
absent. -/
theorem serve_empty_tag_eq_no_tag (store : Store) (self : Pg)
    (pageParam : Option String) :
    BlogIndexPage.serve store self (some "") pageParam =
      BlogIndexPage.serve store self none pageParam := rfl

/-! ## A concrete store: one blog index over eleven live blog posts. -/

/-- A blog index page at the tree root of the examples below. -/
def pgRoot : Pg := ⟨0, [1], PType.blogIndex, true, true, 0, [], ""⟩

/-- The `i`-th live blog post under `pgRoot`. -/
def mkBlog (i : Nat) : Pg := ⟨i + 1, [1, i], PType.blog, true, true, i, [], ""⟩

/-- A store whose blog listing spans two pages (eleven posts, ten per page). -/
def elevenBlogStore : Store := pgRoot :: (List.range 11).map mkBlog

example : (BlogIndexPage.filtered_blogs elevenBlogStore pgRoot none).length = 11 := by decide

/-- C1 counterexample: with eleven posts the listing has two pages, and
`page=0` raises `EmptyPage` inside Django's `validate_number` (it parses as
an integer below 1), so the `except EmptyPage` arm returns the *last* page,
page 2 — not page 1 as claimed. -/
theorem serve_page_zero_not_page_one :
    (BlogIndexPage.serve elevenBlogStore pgRoot none (some "0")).number ≠ 1 := by
  decide

/-- C1 (amended): for every index listing (blog, job, work, person), a
non-numeric `page` such as `"abc"` yields page 1, while `page=0` and
`page=-1` parse as integers below 1 and are clamped to the last page
(which is page 1 only when a single page exists). -/
theorem serve_invalid_page_values (store : Store) (self : Pg)
    (tagParam : Option String) :
    (BlogIndexPage.serve store self tagParam (some "abc")).number = 1 ∧
    (BlogIndexPage.serve store self tagParam (some "0")).number =
      num_pages (BlogIndexPage.filtered_blogs store self tagParam).length 10 ∧
    (BlogIndexPage.serve store self tagParam (some "-1")).number =
      num_pages (BlogIndexPage.filtered_blogs store self tagParam).length 10 ∧
    (JobIndexPage.serve store self (some "abc")).number = 1 ∧
    (JobIndexPage.serve store self (some "0")).number =
      num_pages (JobIndexPage.jobs store self).length 10 ∧
    (JobIndexPage.serve store self (some "-1")).number =
      num_pages (JobIndexPage.jobs store self).length 10 ∧
    (WorkIndexPage.serve store self (some "abc")).number = 1 ∧
    (WorkIndexPage.serve store self (some "0")).number =
      num_pages (WorkIndexPage.work store self).length 10 ∧
    (WorkIndexPage.serve store self (some "-1")).number =
      num_pages (WorkIndexPage.work store self).length 10 ∧
    (PersonIndexPage.serve store self (some "abc")).number = 1 ∧
    (PersonIndexPage.serve store self (some "0")).number =
      num_pages (PersonIndexPage.people store self).length 10 ∧
    (PersonIndexPage.serve store self (some "-1")).number =
      num_pages (PersonIndexPage.people store self).length 10 := by
  refine ⟨?_, ?_, ?_, ?_, ?_, ?_, ?_, ?_, ?_, ?_, ?_, ?_⟩ <;>
    first
      | exact paginate_request_not_int _ _ (by decide)
      | exact paginate_request_too_small _ _ 0 (by decide) (by decide)
      | exact paginate_request_too_small _ _ (-1) (by decide) (by decide)

/-- C3: for every index listing, a numeric `page` beyond the last page is
clamped to the last page, and for every `page` value whatsoever the served
page number lies between 1 and the number of pages (the `try/except`
handles both pagination exceptions, so `serve` never raises). -/
theorem serve_page_overflow_clamps (store : Store) (self : Pg)
    (tagParam raw : Option String) (n : Int) :
    ((pyInt raw = some n ∧
        (num_pages (BlogIndexPage.filtered_blogs store self tagParam).length 10 : Int) < n) →
      (BlogIndexPage.serve store self tagParam raw).number =
        num_pages (BlogIndexPage.filtered_blogs store self tagParam).length 10) ∧
    ((pyInt raw = some n ∧
        (num_pages (JobIndexPage.jobs store self).length 10 : Int) < n) →
      (JobIndexPage.serve store self raw).number =
        num_pages (JobIndexPage.jobs store self).length 10) ∧
    ((pyInt raw = some n ∧
        (num_pages (WorkIndexPage.work store self).length 10 : Int) < n) →
      (WorkIndexPage.serve store self raw).number =
        num_pages (WorkIndexPage.work store self).length 10) ∧
    ((pyInt raw = some n ∧
        (num_pages (PersonIndexPage.people store self).length 10 : Int) < n) →
      (PersonIndexPage.serve store self raw).number =
        num_pages (PersonIndexPage.people store self).length 10) ∧
    (1 ≤ (BlogIndexPage.serve store self tagParam raw).number ∧
      (BlogIndexPage.serve store self tagParam raw).number ≤
        num_pages (BlogIndexPage.filtered_blogs store self tagParam).length 10) ∧
    (1 ≤ (JobIndexPage.serve store self raw).number ∧
      (JobIndexPage.serve store self raw).number ≤
        num_pages (JobIndexPage.jobs store self).length 10) ∧
    (1 ≤ (WorkIndexPage.serve store self raw).number ∧
      (WorkIndexPage.serve store self raw).number ≤
        num_pages (WorkIndexPage.work store self).length 10) ∧
    (1 ≤ (PersonIndexPage.serve store self raw).number ∧
      (PersonIndexPage.serve store self raw).number ≤
        num_pages (PersonIndexPage.people store self).length 10) := by
  refine ⟨fun h => ?_, fun h => ?_, fun h => ?_, fun h => ?_, ?_, ?_, ?_, ?_⟩
  · exact paginate_request_too_big _ _ n h.1 h.2
  · exact paginate_request_too_big _ _ n h.1 h.2
  · exact paginate_request_too_big _ _ n h.1 h.2
  · exact paginate_request_too_big _ _ n h.1 h.2
  · exact paginate_request_number_bounds _ _
  · exact paginate_request_number_bounds _ _
  · exact paginate_request_number_bounds _ _
  · exact paginate_request_number_bounds _ _

/-- Witness for C3 on the concrete two-page store: `page=3` exceeds the
2 blog pages (and the single page of the empty job listing), and both are
clamped. -/
theorem serve_page_overflow_clamps_witness :
    (BlogIndexPage.serve elevenBlogStore pgRoot none (some "3")).number = 2 ∧
    (JobIndexPage.serve elevenBlogStore pgRoot (some "3")).number = 1 := by
  have h := serve_page_overflow_clamps elevenBlogStore pgRoot none (some "3") 3
  have e1 : num_pages (BlogIndexPage.filtered_blogs elevenBlogStore pgRoot none).length 10 = 2 := by
    decide
  have e2 : num_pages (JobIndexPage.jobs elevenBlogStore pgRoot).length 10 = 1 := by
    decide
  exact ⟨e1 ▸ h.1 ⟨by decide, by rw [e1]; decide⟩,
         e2 ▸ h.2.1 ⟨by decide, by rw [e2]; decide⟩⟩

/-- C6: the `link` property resolves with priority page > document >
external: a set `link_page` always wins, `link_document` is used only when
`link_page` is null, and `link_external` only when both are null. -/
theorem linkFields_link_priority (f : LinkFields) :
    (∀ p, f.link_page = some p → f.link = p.url) ∧
    (f.link_page = none → ∀ d, f.link_document = some d → f.link = d.url) ∧
    (f.link_page = none → f.link_document = none → f.link = f.link_external) := by
  refine ⟨fun p hp => ?_, fun hp d hd => ?_, fun hp hd => ?_⟩ <;>
    simp [LinkFields.link, hp]
  · rw [hd]
  · rw [hd]

/-- Witness for C6: with both a page and a document target set, the page's
URL wins; with only lower-priority targets, they resolve in order. -/
theorem linkFields_link_priority_witness :
    LinkFields.link ⟨"ext", some ⟨"purl"⟩, some ⟨"durl"⟩⟩ = "purl" ∧
    LinkFields.link ⟨"ext", none, some ⟨"durl"⟩⟩ = "durl" ∧
    LinkFields.link ⟨"ext", none, none⟩ = "ext" :=
  ⟨(linkFields_link_priority ⟨"ext", some ⟨"purl"⟩, some ⟨"durl"⟩⟩).1 ⟨"purl"⟩ rfl,
   (linkFields_link_priority ⟨"ext", none, some ⟨"durl"⟩⟩).2.1 rfl ⟨"durl"⟩ rfl,
   (linkFields_link_priority ⟨"ext", none, none⟩).2.2 rfl rfl⟩

/-- C7: on every in-range time of day the filter agrees with the spec's
12-hour format (no leading zero, `.minutes` only when non-zero, `am`/`pm`,
hours 0 and 12 shown as 12), and the spec's five examples hold. -/
theorem time_display_matches_spec :
    (∀ t : TimeOfDay, t.hour ≤ 23 → t.minute ≤ 59 →
      time_display t = spec_time_display t) ∧
    time_display ⟨9, 0⟩ = "9am" ∧
    time_display ⟨13, 5⟩ = "1.5pm" ∧
    time_display ⟨0, 0⟩ = "12am" ∧
    time_display ⟨12, 0⟩ = "12pm" ∧
    time_display ⟨23, 45⟩ = "11.45pm" := by
  refine ⟨fun t h1 h2 => ?_, by decide, by decide, by decide, by decide, by decide⟩
  obtain ⟨h, m⟩ := t
  simp only at h1 h2
  simp only [time_display, spec_time_display]
  have hmod : (if (if 12 ≤ h then h - 12 else h) = 0 then 12
      else if 12 ≤ h then h - 12 else h) = (if h % 12 = 0 then 12 else h % 12) := by
    rcases le_or_lt 12 h with h12 | h12
    · have e : h % 12 = h - 12 := by omega
      rw [e]
      simp only [if_pos h12]
    · have e : h % 12 = h := Nat.mod_eq_of_lt h12
      rw [e]
      simp only [if_neg (Nat.not_le.mpr h12)]
  rw [hmod]
  congr 1
  simp [bne_iff_ne]

/-- Witness for C7: the general agreement applied at 13:05. -/
theorem time_display_matches_spec_witness :
    time_display ⟨13, 5⟩ = spec_time_display ⟨13, 5⟩ :=
  time_display_matches_spec.1 ⟨13, 5⟩ (by decide) (by decide)

/-- C4: for a non-empty tag `X`, membership in the tag-filtered blog listing
is exactly: a live `BlogPage` in the subtree of this index whose tag set
contains `X`. -/
theorem blog_tag_filter_exact (store : Store) (self : Pg) (tag : String)
    (ht : tag ≠ "") (b : Pg) :
    b ∈ BlogIndexPage.filtered_blogs store self (some tag) ↔
      (b ∈ store ∧ b.ptype = PType.blog ∧ b.live = true ∧
        self.path.isPrefixOf b.path = true ∧ tag ∈ b.tags) := by
  have hne : (tag != "") = true := bne_iff_ne.mpr ht
  rw [BlogIndexPage.filtered_blogs, if_pos hne, BlogIndexPage.blogs]
  rw [List.mem_filter, List.mem_insertionSort, List.mem_filter]
  simp only [Bool.and_eq_true, beq_iff_eq, List.elem_iff]
  constructor
  · rintro ⟨⟨hmem, ⟨htyp, hlive⟩, hpre⟩, htag⟩
    exact ⟨hmem, htyp, hlive, hpre, htag⟩
  · rintro ⟨hmem, htyp, hlive, hpre, htag⟩
    exact ⟨⟨hmem, ⟨htyp, hlive⟩, hpre⟩, htag⟩

/-! ## A concrete store with tagged posts and distinct dates. -/

/-- A blog index page used by the tagged examples. -/
def tagIndex : Pg := ⟨0, [2], PType.blogIndex, true, true, 0, [], ""⟩

/-- A live post under `tagIndex` tagged `"x"`, dated 5. -/
def tagBlogA : Pg := ⟨1, [2, 0], PType.blog, true, true, 5, ["x"], ""⟩

/-- A live post under `tagIndex` tagged `"y"`, dated 3. -/
def tagBlogB : Pg := ⟨2, [2, 1], PType.blog, true, true, 3, ["y"], ""⟩

/-- An unpublished post under `tagIndex` tagged `"x"`, dated 4. -/
def tagBlogDead : Pg := ⟨3, [2, 2], PType.blog, false, true, 4, ["x"], ""⟩

/-- The tagged example store. -/
def tagStore : Store := [tagIndex, tagBlogA, tagBlogB, tagBlogDead]

/-- Witness for C4: in the concrete tagged store, the live `"x"`-tagged post
satisfies the membership characterisation. -/
theorem blog_tag_filter_exact_witness :
    tagBlogA ∈ BlogIndexPage.filtered_blogs tagStore tagIndex (some "x") ↔
      (tagBlogA ∈ tagStore ∧ tagBlogA.ptype = PType.blog ∧ tagBlogA.live = true ∧
        tagIndex.path.isPrefixOf tagBlogA.path = true ∧ "x" ∈ tagBlogA.tags) :=
  blog_tag_filter_exact tagStore tagIndex "x" (by decide) tagBlogA

/-- C5: every element of the `blogs` collection is a live `BlogPage` from
the index's subtree, the collection is ordered by date descending, and when
the selected posts have pairwise distinct dates the order is strictly
decreasing. -/
theorem blogs_live_descendants_sorted (store : Store) (self : Pg) :
    (∀ b ∈ BlogIndexPage.blogs store self,
      b ∈ store ∧ b.ptype = PType.blog ∧ b.live = true ∧
        self.path.isPrefixOf b.path = true) ∧
    (BlogIndexPage.blogs store self).Pairwise (fun a b => b.date ≤ a.date) ∧
    (((store.filter fun p =>
          p.ptype == PType.blog && p.live && self.path.isPrefixOf p.path).Pairwise
        fun a b => a.date ≠ b.date) →
      (BlogIndexPage.blogs store self).Pairwise fun a b => b.date < a.date) := by
  have hsorted : (BlogIndexPage.blogs store self).Pairwise fun a b => b.date ≤ a.date :=
    List.Pairwise.imp (fun h => h)
      (List.sorted_insertionSort dateGE
        (store.filter fun p => p.ptype == PType.blog && p.live && self.path.isPrefixOf p.path))
  refine ⟨?_, hsorted, ?_⟩
  · intro b hb
    rw [BlogIndexPage.blogs, List.mem_insertionSort, List.mem_filter] at hb
    obtain ⟨hmem, hcond⟩ := hb
    simp only [Bool.and_eq_true, beq_iff_eq] at hcond
    exact ⟨hmem, hcond.1.1, hcond.1.2, hcond.2⟩
  · intro hd
    have hperm := List.perm_insertionSort dateGE
      (store.filter fun p => p.ptype == PType.blog && p.live && self.path.isPrefixOf p.path)
    have hne : (BlogIndexPage.blogs store self).Pairwise fun a b => a.date ≠ b.date := by
      rw [BlogIndexPage.blogs]
      exact (hperm.pairwise_iff (fun h => Ne.symm h)).mpr hd
    exact List.Pairwise.imp (fun h => by obtain ⟨h1, h2⟩ := h; omega) (hsorted.and hne)

/-- Witness for C5: the concrete tagged store has pairwise distinct post
dates, so its listing is strictly decreasing by date. -/
theorem blogs_live_descendants_sorted_witness :
    (BlogIndexPage.blogs tagStore tagIndex).Pairwise fun a b => b.date < a.date :=
  (blogs_live_descendants_sorted tagStore tagIndex).2.2 (by decide)

/-- On a list sorted by depth descending, `find?` returns a match of
maximal depth. -/
theorem find?_max_length {p : Pg → Bool} :
    ∀ (l : List Pg), (l.Pairwise fun a b => b.path.length ≤ a.path.length) →
      ∀ a, l.find? p = some a → ∀ b ∈ l, p b = true →
        b.path.length ≤ a.path.length := by
  intro l
  induction l with
  | nil => intro _ a ha; cases ha
  | cons x xs ih =>
    intro hpw a ha b hb hpb
    by_cases hx : p x = true
    · rw [List.find?_cons_of_pos _ hx] at ha
      injection ha with ha
      subst ha
      rcases List.mem_cons.mp hb with rfl | hb'
      · exact le_refl _
      · exact (List.pairwise_cons.mp hpw).1 b hb'
    · rw [List.find?_cons_of_neg _ hx] at ha
      rcases List.mem_cons.mp hb with rfl | hb'
      · exact absurd hpb hx
      · exact ih (List.pairwise_cons.mp hpw).2 a ha b hb' hpb

/-- Unfolding of membership in the reversed ancestor walk. -/
theorem mem_ancestors_reverse (store : Store) (self : Pg) (x : Pg) :
    x ∈ (get_ancestors store self).reverse ↔
      (x ∈ store ∧ x.path.isPrefixOf self.path = true ∧ x.path ≠ self.path) := by
  rw [List.mem_reverse, get_ancestors, List.mem_insertionSort, List.mem_filter]
  simp only [Bool.and_eq_true, bne_iff_ne]

/-- C2: when some proper ancestor is a `BlogIndexPage`, `blog_index` returns
an ancestor `BlogIndexPage` of maximal depth (i.e. the nearest one, since
the walk runs nearest-first); when no ancestor qualifies, it returns the
first `BlogIndexPage` in store order. -/
theorem blog_index_nearest_ancestor (store : Store) (self : Pg) :
    ((∃ a ∈ store, a.path.isPrefixOf self.path = true ∧ a.path ≠ self.path ∧
        a.ptype = PType.blogIndex) →
      ∃ a, Pg.blog_index store self = some a ∧ a ∈ store ∧
        a.path.isPrefixOf self.path = true ∧ a.path ≠ self.path ∧
        a.ptype = PType.blogIndex ∧
        ∀ b ∈ store, b.path.isPrefixOf self.path = true → b.path ≠ self.path →
          b.ptype = PType.blogIndex → b.path.length ≤ a.path.length) ∧
    ((∀ a ∈ store, a.path.isPrefixOf self.path = true → a.path ≠ self.path →
        a.ptype ≠ PType.blogIndex) →
      Pg.blog_index store self = store.find? fun q => q.ptype == PType.blogIndex) := by
  have hpw : (get_ancestors store self).reverse.Pairwise
      fun a b => b.path.length ≤ a.path.length := by
    rw [List.pairwise_reverse]
    exact List.Pairwise.imp (fun h => h)
      (List.sorted_insertionSort depthLE
        (store.filter fun a => a.path.isPrefixOf self.path && a.path != self.path))
  constructor
  · rintro ⟨a0, ha0s, ha0p, ha0ne, ha0t⟩
    have hex : ∃ x ∈ (get_ancestors store self).reverse,
        (x.ptype == PType.blogIndex) = true :=
      ⟨a0, (mem_ancestors_reverse store self a0).mpr ⟨ha0s, ha0p, ha0ne⟩,
        beq_iff_eq.mpr ha0t⟩
    obtain ⟨a, ha⟩ := Option.isSome_iff_exists.mp (List.find?_isSome.mpr hex)
    have hmem := (mem_ancestors_reverse store self a).mp (List.mem_of_find?_eq_some ha)
    have hpa : (a.ptype == PType.blogIndex) = true :=
      @List.find?_some Pg (fun x => x.ptype == PType.blogIndex) a _ ha
    refine ⟨a, ?_, hmem.1, hmem.2.1, hmem.2.2, beq_iff_eq.mp hpa, ?_⟩
    · unfold Pg.blog_index
      rw [ha]
    · intro b hbs hbp hbne hbt
      exact find?_max_length _ hpw a ha b
        ((mem_ancestors_reverse store self b).mpr ⟨hbs, hbp, hbne⟩)
        (beq_iff_eq.mpr hbt)
  · intro hnone
    have hn : (get_ancestors store self).reverse.find?
        (fun a => a.ptype == PType.blogIndex) = none := by
      rw [List.find?_eq_none]
      intro x hx hbx
      obtain ⟨hxs, hxp, hxne⟩ := (mem_ancestors_reverse store self x).mp hx
      exact hnone x hxs hxp hxne (beq_iff_eq.mp hbx)
    unfold Pg.blog_index
    rw [hn]

/-- Witness for C2: in the concrete tagged store, the post under the index
resolves to an ancestor blog index of maximal depth. -/
theorem blog_index_nearest_ancestor_witness :
    ∃ a, Pg.blog_index tagStore tagBlogA = some a ∧ a ∈ tagStore ∧
      a.path.isPrefixOf tagBlogA.path = true ∧ a.path ≠ tagBlogA.path ∧
      a.ptype = PType.blogIndex ∧
      ∀ b ∈ tagStore, b.path.isPrefixOf tagBlogA.path = true →
        b.path ≠ tagBlogA.path → b.ptype = PType.blogIndex →
          b.path.length ≤ a.path.length :=
  (blog_index_nearest_ancestor tagStore tagBlogA).1 ⟨tagIndex, by decide⟩

/-- C10: with no `BlogIndexPage` anywhere in the store (hence none among the
ancestors), `blog_index` returns `None` — `objects.first()` on an empty
queryset — rather than raising. -/
theorem blog_index_none_without_index (store : Store) (self : Pg)
    (h : ∀ q ∈ store, q.ptype ≠ PType.blogIndex) :
    Pg.blog_index store self = none := by
  have h1 : (get_ancestors store self).reverse.find?
      (fun a => a.ptype == PType.blogIndex) = none := by
    rw [List.find?_eq_none]
    intro x hx hbx
    exact h x ((mem_ancestors_reverse store self x).mp hx).1 (beq_iff_eq.mp hbx)
  have h2 : store.find? (fun q => q.ptype == PType.blogIndex) = none := by
    rw [List.find?_eq_none]
    intro x hx hbx
    exact h x hx (beq_iff_eq.mp hbx)
  unfold Pg.blog_index
  rw [h1, h2]

/-- Witness for C10: a store of two plain blog posts has no blog index, and
resolution returns `none`. -/
theorem blog_index_none_without_index_witness :
    Pg.blog_index [tagBlogA, tagBlogB] tagBlogA = none :=
  blog_index_none_without_index [tagBlogA, tagBlogB] tagBlogA (by decide)

/-- C8: the top menu consists exactly of the parent's live, nav-visible
immediate children, each paired with a dropdown flag, and the flag is true
precisely when that child itself has a live, nav-visible child. -/
theorem top_menu_spec (store : Store) (parent : Pg) :
    (∀ c d, (c, d) ∈ top_menu store parent ↔
      (c ∈ store ∧ c.path.length = parent.path.length + 1 ∧
        parent.path.isPrefixOf c.path = true ∧ c.live = true ∧
        c.show_in_menus = true ∧ d = has_menu_children store c)) ∧
    (∀ c, has_menu_children store c = true ↔
      ∃ g ∈ store, g.path.length = c.path.length + 1 ∧
        c.path.isPrefixOf g.path = true ∧ g.live = true ∧ g.show_in_menus = true) := by
  constructor
  · intro c d
    simp only [top_menu, get_children, List.mem_map, List.mem_filter,
      Bool.and_eq_true, beq_iff_eq, Prod.mk.injEq]
    constructor
    · rintro ⟨x, ⟨⟨hs, hlen, hp⟩, hl, hm⟩, rfl, rfl⟩
      exact ⟨hs, hlen, hp, hl, hm, rfl⟩
    · rintro ⟨hs, hlen, hp, hl, hm, rfl⟩
      exact ⟨c, ⟨⟨hs, hlen, hp⟩, hl, hm⟩, rfl, rfl⟩
  · intro c
    have hne : ∀ (l : List Pg), (!l.isEmpty) = true ↔ l ≠ [] := by
      intro l; cases l <;> simp
    rw [has_menu_children, hne, Ne, List.filter_eq_nil_iff]
    push_neg
    simp only [get_children, List.mem_filter, Bool.and_eq_true, beq_iff_eq]
    constructor
    · rintro ⟨g, ⟨hs, hlen, hp⟩, hq⟩
      exact ⟨g, hs, hlen, hp, hq.1, hq.2⟩
    · rintro ⟨g, hs, hlen, hp, hl, hm⟩
      exact ⟨g, ⟨hs, hlen, hp⟩, hl, hm⟩
